import Mathlib

/-
Verification of the batched, timeout-protected, fallback-chained
media-to-structured-content pipeline of the youtube_summary repository.

The development shallowly embeds the pipeline logic of
src/slide_generator.py, src/main.py and src/youtube_summary.py.  External
effects (the Gemini / OpenAI calls, pdf rasterization, yt-dlp, ffmpeg,
Playwright) are modelled by outcome oracles passed as parameters; the
control flow around them is translated from the source.
-/

namespace YTS

/-! ## JSON values

Model of the Python values produced by json.loads on a Gemini response
(src/slide_generator.py, analyze_slide_with_gemini). -/

/-- A JSON-like Python value: None, bool, int, str, list or dict
(dicts modelled as ordered key/value lists, reflecting insertion order). -/
inductive JValue where
  | jnull : JValue
  | jbool : Bool → JValue
  | jnum : Int → JValue
  | jstr : String → JValue
  | jarr : List JValue → JValue
  | jobj : List (String × JValue) → JValue
deriving Inhabited

/-- Python `key in dict` on the field list of a JSON object. -/
def hasKey (fields : List (String × JValue)) (k : String) : Bool :=
  fields.any (fun p => p.1 == k)

/-- Python `d[k] = v` when `k not in d`: appends the new pair (insertion
order semantics of Python dicts). -/
def addDefault (fields : List (String × JValue)) (k : String) (v : JValue) :
    List (String × JValue) :=
  if hasKey fields k then fields else fields ++ [(k, v)]

/-- Dictionary lookup `d.get(k)` on a JSON object field list. -/
def jGet (v : JValue) (k : String) : Option JValue :=
  match v with
  | .jobj fields => (fields.find? (fun p => p.1 == k)).map Prod.snd
  | _ => none

/-! ## analyze_slide_with_gemini (src/slide_generator.py lines 34-152)

The retry loop wrapping the Gemini vision call.  One attempt is an oracle
outcome: either a parsed JSON value (response received and json.loads
succeeded) or an exception rendered as its message string (network error,
API error, or a json.loads failure; the source formats it with str(e)). -/

/-- Outcome of one attempt of the wrapped external call. -/
inductive Attempt where
  | ok : JValue → Attempt
  | err : String → Attempt

/-- max_retries = 3 (line 40). -/
def maxRetries : Nat := 3

/-- base_delay = 2 (line 41). -/
def baseDelay : Nat := 2

/-- Whether the second character list is an initial segment of the
first. -/
def listStartsWith : List Char → List Char → Bool
  | _, [] => true
  | [], _ :: _ => false
  | a :: as, b :: bs => a == b && listStartsWith as bs

/-- Whether the second character list occurs contiguously inside the
first. -/
def hasSub : List Char → List Char → Bool
  | [], needle => needle.isEmpty
  | a :: t, needle => listStartsWith (a :: t) needle || hasSub t needle

/-- Python substring test `sub in s`: containment of the character
sequence of sub in the character sequence of s. -/
def strContains (s sub : String) : Bool :=
  hasSub s.data sub.data

/-- Line 131: `'429' in error_str or 'RESOURCE_EXHAUSTED' in error_str`,
the rate-limit / quota-exhaustion signal class. -/
def isRateLimitError (msg : String) : Bool :=
  strContains msg "429" || strContains msg "RESOURCE_EXHAUSTED"

/-- Lines 138-145: the placeholder analysis dict returned after the final
failed attempt.  Its content carries the error string. -/
def finalFailurePlaceholder (errMsg : String) : JValue :=
  .jobj [("title", .jstr "分析暫時無法使用"),
         ("content", .jarr [.jstr ("錯誤: " ++ errMsg),
                            .jstr "請稍後再試或更換 API Key"]),
         ("layout", .jstr "split_left_image"),
         ("speaker_notes", .jstr "系統無法讀取此頁面。"),
         ("background_color_hex", .jstr "#FFFFFF"),
         ("text_color_hex", .jstr "#000000")]

/-- Lines 148-152: the placeholder returned when the outer try fails
(client construction / image encoding). -/
def outerFailurePlaceholder : JValue :=
  .jobj [("title", .jstr "分析發生錯誤"),
         ("content", .jarr [.jstr "無法分析此頁面"]),
         ("layout", .jstr "split_left_image")]

/-- Lines 113-117: a JSON list response is replaced by its first element,
and an empty list by an empty dict; non-list values pass through. -/
def selectFromList : JValue → JValue
  | .jarr (x :: _) => x
  | .jarr [] => .jobj []
  | v => v

/-- Lines 120-121: insert default colour fields when missing.  On a
non-dict result Python raises TypeError at the item assignment (a raise
inside the try, handled by the same except clause); that is the none
case.  (The pathological case of a str result that happens to contain
both key names as substrings is not modelled; no claim touches it.) -/
def fillColorDefaults : JValue → Option JValue
  | .jobj fields =>
      some (.jobj (addDefault
        (addDefault fields "background_color_hex" (.jstr "#FFFFFF"))
        "text_color_hex" (.jstr "#000000")))
  | _ => none

/-- Stand-in message for the TypeError raised by the default-field
assignment on a non-dict result (its exact Python rendering is
irrelevant to every claim; it is not a rate-limit signal). -/
def typeErrorMsg : String := "TypeError: item assignment"

/-- The retry loop (lines 94-145) over the list of remaining attempt
numbers (invoked with [0, 1, 2]).  Returns the resulting analysis value
together with the list of backoff sleeps performed, recorded as their
base component base_delay * 2 ^ attempt (the uniform random jitter term
of line 132 only perturbs the duration and is elided).  Control flow of
the except clause (lines 125-145): a rate-limit error before the last
attempt sleeps and retries; any error on the last attempt returns the
placeholder; any other error before the last attempt falls through the
loop and retries without sleeping.  A for-loop that somehow ran out of
attempts would return Python None (jnull); with maxRetries = 3 this is
unreachable. -/
def geminiAttemptLoop (oracle : Nat → Attempt) : List Nat → JValue × List Nat
  | [] => (.jnull, [])
  | attempt :: rest =>
    let handleErr := fun (msg : String) =>
      if isRateLimitError msg && decide (attempt < maxRetries - 1) then
        let r := geminiAttemptLoop oracle rest
        (r.1, baseDelay * 2 ^ attempt :: r.2)
      else if attempt == maxRetries - 1 then
        (finalFailurePlaceholder msg, [])
      else
        geminiAttemptLoop oracle rest
    match oracle attempt with
    | .ok v =>
      match fillColorDefaults (selectFromList v) with
      | some r => (r, [])
      | none => handleErr typeErrorMsg
    | .err msg => handleErr msg

/-- analyze_slide_with_gemini (lines 34-152).  setupOk models the outer
try: when client construction or image encoding raises, the outer except
returns outerFailurePlaceholder.  The function never raises: its Python
body converts every failure into a returned dict. -/
def analyze_slide_with_gemini (setupOk : Bool) (oracle : Nat → Attempt) :
    JValue × List Nat :=
  if setupOk then geminiAttemptLoop oracle (List.range maxRetries)
  else (outerFailurePlaceholder, [])

/-! ## analyze_presentation (src/slide_generator.py lines 392-585)

The batched slide-analysis pipeline: page selection, priority-first-page
batching, per-batch rasterization with timeout padding, concurrent per-page
AI analysis joined by asyncio.gather, and index-preserving collection. -/

/-- A rasterized page image: a real render of a 0-based page (dpi 100), a
blank 800x600 white placeholder (lines 543, 546, 550), or an edited image
produced by the text-removal call. -/
inductive Img where
  | page : Int → Img
  | blank : Img
  | edited : Int → Img
deriving Repr, DecidableEq

/-- The in-range predicate of line 431 (0 <= i < total). -/
def inRangeIdx (total : Nat) (i : Int) : Bool :=
  decide (0 ≤ i) && decide (i < (total : Int))

/-- Lines 430-432: the 0-based page indices to process.  Python truth
testing: `selected_indices if selected_indices else list(range(...))`, so
an EMPTY selected list falls back to all pages just like None.  Then the
in-range filter and an ascending sort (list.sort, modelled by insertion
sort; Python's sort is stable, but the elements are plain integers so any
ascending sort is extensionally identical). -/
def targetIndices (selected : Option (List Int)) (total : Nat) : List Int :=
  let base := match selected with
    | some l => if l.isEmpty then (List.range total).map Int.ofNat else l
    | none => (List.range total).map Int.ofNat
  List.insertionSort (· ≤ ·) (base.filter (inRangeIdx total))

/-- BATCH_SIZE = 3 (line 441). -/
def BATCH_SIZE : Nat := 3

/-- The while loop of lines 490-493: successive chunks of BATCH_SIZE = 3
(chunk = remaining[:3]; remaining = remaining[3:]), written out for the
source's fixed batch size so that the recursion is structural. -/
def chunkBatches : List Int → List (List Int)
  | [] => []
  | [a] => [[a]]
  | [a, b] => [[a, b]]
  | a :: b :: c :: rest => [a, b, c] :: chunkBatches rest

/-- Lines 481-493: priority-first-page batching.  The first target index
forms a singleton batch; the remainder is chunked by BATCH_SIZE. -/
def buildBatches (target : List Int) : List (List Int) :=
  match target with
  | [] => []
  | first :: rest => [first] :: chunkBatches rest

/-- Outcome of the per-batch pdf-to-image conversion (lines 512-546):
the convert_from_path result, an asyncio.TimeoutError after 45 s, or any
other exception.  Timeout and error substitute one blank per index. -/
inductive ConvOutcome where
  | ok : List Img → ConvOutcome
  | timeout : ConvOutcome
  | error : ConvOutcome

/-- Lines 512-551: obtain the images of one batch, then the fail-safe
padding/truncation to the batch size (lines 549-551). -/
def batchImages (conv : List Int → ConvOutcome) (bi : List Int) : List Img :=
  let imgs := match conv bi with
    | .ok l => l
    | .timeout => bi.map (fun _ => Img.blank)
    | .error => bi.map (fun _ => Img.blank)
  (imgs ++ List.replicate (bi.length - imgs.length) Img.blank).take bi.length

/-- Behaviour of the two gathered AI calls for one page (lines 450-460):
both results, a per-page 60 s asyncio.TimeoutError, another exception
inside process_single_page, or a BaseException (cancellation) escaping to
the outer asyncio.gather(return_exceptions=True). -/
inductive PageOutcome where
  | ok : JValue → Img → PageOutcome
  | timeout : PageOutcome
  | failure : PageOutcome
  | cancelled : PageOutcome

/-- Lines 464-468: placeholder for a page whose AI analysis timed out. -/
def timeoutPlaceholder : JValue :=
  .jobj [("title", .jstr "分析超時"),
         ("content", .jarr [.jstr "AI 回應過慢，請手動編輯"]),
         ("layout", .jstr "split_left_image")]

/-- Lines 471-475: placeholder for a page whose AI analysis raised. -/
def pageFailurePlaceholder : JValue :=
  .jobj [("title", .jstr "分析失敗"),
         ("content", .jarr [.jstr "請手動編輯此頁面"]),
         ("layout", .jstr "split_left_image")]

/-- Line 564: placeholder substituted when asyncio.gather hands back an
Exception object for a task. -/
def gatherErrorPlaceholder : JValue :=
  .jobj [("title", .jstr "錯誤"),
         ("content", .jarr [.jstr "系統發生預期外錯誤"]),
         ("layout", .jstr "split_left_image")]

/-- process_single_page (lines 446-475): returns the pair appended to the
result lists, or none when the task surfaces as an Exception in the
gather result (handled at lines 562-565). -/
def process_single_page (outcome : Int → PageOutcome) (idx : Int) (img : Img) :
    Option (JValue × Img) :=
  match outcome idx with
  | .ok a c => some (a, c)
  | .timeout => some (timeoutPlaceholder, img)
  | .failure => some (pageFailurePlaceholder, img)
  | .cancelled => none

/-- Operational model of `await asyncio.gather(*tasks)` (line 559): every
task, when it completes, writes its value into the slot of its submission
index; the slots are read out in submission order once all tasks have
completed.  schedule is the order in which the concurrently running tasks
complete; for a real run it is a permutation of the submission indices. -/
def gatherSlots {α : Type} (d : α) (tasks : List α) (schedule : List Nat) :
    List α :=
  schedule.foldl (fun acc i => acc.set i (tasks.getD i d))
    (List.replicate tasks.length d)

/-- Lines 553-568 for one batch: build one task per padded image, gather
them under the given completion schedule, and collect analysis/image
pairs in submission order, substituting the gather-error placeholder
(paired with batch_images[k]) for an Exception entry. -/
def runBatch (conv : List Int → ConvOutcome) (outcome : Int → PageOutcome)
    (sched : List Nat) (bi : List Int) : List (JValue × Img) :=
  let imgs := batchImages conv bi
  let tasks := List.zipWith (process_single_page outcome) bi imgs
  let results := gatherSlots none tasks sched
  List.zipWith (fun img r => match r with
    | some p => p
    | none => (gatherErrorPlaceholder, img)) imgs results

/-- The batch for-loop of lines 498-583, threading the batch counter so
that each gather call gets its own completion schedule. -/
def runBatches (conv : List Int → ConvOutcome) (outcome : Int → PageOutcome)
    (scheds : Nat → List Nat) : Nat → List (List Int) → List (JValue × Img)
  | _, [] => []
  | b, bi :: rest =>
      runBatch conv outcome (scheds b) bi
        ++ runBatches conv outcome scheds (b + 1) rest

/-- Observable result of one analyze_presentation run: the two returned
lists plus the calls issued to the rasterizer (one conversion request per
batch) and to the per-page AI layer (one analysis per page, in
submission order). -/
structure AnalyzeRun where
  analyses : List JValue
  cleaned_images : List Img
  convCalls : List (List Int)
  aiCalls : List Int

/-- analyze_presentation (lines 392-585): total is the pypdf page count,
selected the caller page selection, conv / outcome the rasterizer and
per-page AI behaviour, scheds the completion order of each batch's
gathered tasks.  An empty target list returns immediately (line 434-435)
before any batch is formed, so no conversion and no AI call happens. -/
def analyze_presentation (total : Nat) (selected : Option (List Int))
    (conv : List Int → ConvOutcome) (outcome : Int → PageOutcome)
    (scheds : Nat → List Nat) : AnalyzeRun :=
  let target := targetIndices selected total
  if target.isEmpty then ⟨[], [], [], []⟩
  else
    let batches := buildBatches target
    let pairs := runBatches conv outcome scheds 0 batches
    ⟨pairs.map Prod.fst, pairs.map Prod.snd, batches, batches.flatten⟩

/-! ## event_generator and the single-flight guard (src/main.py lines 81, 221-297)

The SSE generator serving /api/summarize.  processing_lock is a single
module-level asyncio.Lock.  The generator first yields a connecting log,
then tests processing_lock.locked(): if held it yields a busy error event
and returns (the request is neither queued nor retried); otherwise it
enters `async with processing_lock` (no await point separates the test
from the acquisition, so the check-then-acquire pair is atomic on the
event loop), starts the worker, and polls until the worker future
completes, the 600 s wall clock is exceeded, or the loop body raises;
leaving the async-with releases the lock on every one of those exits. -/

/-- One server-sent event, as the typed payloads of main.py. -/
inductive SseEvent where
  | log : String → SseEvent
  | error : String → SseEvent
  | result : String → String → SseEvent
  | done : SseEvent
  | ping : SseEvent
deriving Repr, DecidableEq

/-- Line 222. -/
def connectingLog : SseEvent := .log "🔌 連線建立中..."

/-- Line 225: the distinct busy rejection event. -/
def busyError : SseEvent := .error "⚠️ 系統正忙於處理另一個影片，請稍候。"

/-- Line 281: the whole-job timeout event (600 s wall clock). -/
def wholeJobTimeoutError : SseEvent := .error "❌ 處理逾時 (10分鐘)，系統強制終止。"

/-- os.path.basename (line 272), for filenames with / separators. -/
def basename (s : String) : String :=
  (s.splitOn "/").getLastD s

/-- Environment of one accepted run: auth configuration (lines 233-236)
and the rendered cost-tracker log line (lines 241-249; its numeric
formatting is oracle-supplied). -/
structure EnvInfo where
  authEnabled : Bool
  allowedCount : Nat
  costLog : String

/-- Lines 230-249: the fixed preamble events of an accepted request. -/
def setupEvents (env : EnvInfo) : List SseEvent :=
  [.log "🚀 系統核心已啟動",
   .log ("🔒 安全模組: " ++ (if env.authEnabled then "✅ 已啟用 (Google OAuth)"
                             else "⚠️ 未啟用 (使用 Local 模式)"))]
  ++ (if env.authEnabled
      then [.log ("👤 允許清單: " ++ toString env.allowedCount ++ " 位使用者")]
      else [])
  ++ [.log env.costLog]

/-- What one iteration of the polling loop (lines 262-295) observes after
draining the queue: the worker future completed (with a (filename,
content) pair or an exception), the 600 s ceiling was found exceeded, a
queue message arrived within the 2 s wait, the wait timed out (ping), or
the loop body itself raised. -/
inductive IterStep where
  | futureDone : Except String (String × String) → IterStep
  | timeExceeded : IterStep
  | queueMsg : String → IterStep
  | waitTimeout : IterStep
  | sysError : String → IterStep

/-- One polling iteration: messages drained at the loop top (lines
264-266) and the step that follows. -/
structure LoopIter where
  drained : List String
  step : IterStep

/-- Whether a step breaks the polling loop (every break of lines 262-295:
job completion, job error, whole-job timeout, internal error). -/
def stepTerminates : IterStep → Bool
  | .futureDone _ => true
  | .timeExceeded => true
  | .sysError _ => true
  | .queueMsg _ => false
  | .waitTimeout => false

/-- The polling loop (lines 262-295) over the iteration observations.
Returns the emitted events and whether the loop has exited (broken) --
an unexhausted observation list with no terminating step leaves the job
still in flight. -/
def runLoop : List LoopIter → List SseEvent × Bool
  | [] => ([], false)
  | it :: rest =>
    let head := it.drained.map SseEvent.log
    match it.step with
    | .futureDone (.ok (fn, content)) =>
        (head ++ [.result content (basename fn), .done], true)
    | .futureDone (.error e) =>
        (head ++ [.error ("❌ 發生錯誤: " ++ e)], true)
    | .timeExceeded => (head ++ [wholeJobTimeoutError], true)
    | .sysError e => (head ++ [.error ("系統錯誤: " ++ e)], true)
    | .queueMsg m =>
        let r := runLoop rest
        (head ++ [.log m] ++ r.1, r.2)
    | .waitTimeout =>
        let r := runLoop rest
        (head ++ [.ping] ++ r.1, r.2)

/-- Observable outcome of one event_generator invocation. -/
structure GenResult where
  events : List SseEvent
  acquired : Bool
  lockHeldAfter : Bool
  jobStarted : Bool
deriving Repr, DecidableEq

/-- event_generator (lines 221-297).  lockHeld is the state of
processing_lock when the busy check of line 224 runs.  When held, the
request is answered with the busy error and the generator returns: the
lock stays with its current holder and no worker is started.  When free,
the generator acquires the lock, emits the preamble, starts the worker
(line 258) and polls; the lock is held until the loop breaks, and leaving
the async-with block then releases it. -/
def event_generator (lockHeld : Bool) (env : EnvInfo) (iters : List LoopIter) :
    GenResult :=
  if lockHeld then
    { events := [connectingLog, busyError],
      acquired := false, lockHeldAfter := true, jobStarted := false }
  else
    let r := runLoop iters
    { events := connectingLog :: (setupEvents env ++ r.1),
      acquired := true, lockHeldAfter := !r.2, jobStarted := true }

/-! ## get_audio_and_transcribe (src/youtube_summary.py lines 763-961)

The audio-download + speech-to-text tier.  The outer try (lines 779-845)
wraps the yt-dlp download, the audio-file search on disk (raising
explicitly when nothing was downloaded, lines 791-798) and the oversize
compression step; any exception escaping it triggers the Playwright
browser fallback (lines 845-856).  Note the compression step's inner
except (line 840) catches only subprocess.CalledProcessError (a nonzero
ffmpeg exit) and returns None; a different exception from launching
ffmpeg (e.g. FileNotFoundError when the binary is absent) escapes to the
outer except and therefore also triggers the Playwright fallback. -/

/-- Outcome of the yt-dlp download step (lines 780-798): an audio file of
the given size in bytes was found on disk, the download finished but no
temp_audio.* file exists (the explicit raise of line 798), or yt-dlp
itself raised. -/
inductive DownloadOutcome where
  | okFile : Nat → DownloadOutcome
  | noFile : DownloadOutcome
  | raised : String → DownloadOutcome
deriving Repr, DecidableEq

/-- Outcome of the ffmpeg re-encode subprocess (lines 816-826): success
with the new file size, a nonzero exit (subprocess.CalledProcessError,
caught at line 840), or a failure to spawn the process at all (an
exception of another class, escaping the inner except). -/
inductive CompressOutcome where
  | ok : Nat → CompressOutcome
  | exitError : String → CompressOutcome
  | spawnError : String → CompressOutcome
deriving Repr, DecidableEq

/-- The re-encode parameters of lines 816-823: ffmpeg -vn -ac 1 -b:a 8k,
i.e. mono at an 8 kbit/s bitrate. -/
structure CompressSpec where
  audioChannels : Nat
  bitrate : String
deriving Repr, DecidableEq

def ffmpegCompressSpec : CompressSpec := ⟨1, "8k"⟩

/-- file_size_mb > 24 with file_size_mb = bytes / (1024*1024)
(lines 803-806): equivalent to bytes > 24 * 1048576. -/
def sizeCeilingBytes : Nat := 24 * 1024 * 1024

/-- ffmpeg -f segment -segment_time 1200 (lines 883-890): fixed
20-minute segments. -/
def segmentSeconds : Nat := 1200

/-- Oracle environment of one get_audio_and_transcribe run.  playwright
is the browser fallback's result (captured audio file size, or none);
segmentCount is the number of chunk files the ffmpeg segmentation
produces (collected by sorted glob, line 894); transcribe gives the
Whisper outcome for the k-th processed file. -/
structure AudioEnv where
  download : DownloadOutcome
  compress : CompressOutcome
  playwright : Option Nat
  openaiKey : Bool
  segmentCount : Nat
  transcribe : Nat → Except String String

/-- Observable result of one get_audio_and_transcribe run: the returned
transcript (none models returning Python None), whether the Playwright
fallback was invoked, the re-encode parameters when the compression step
ran, and the segmentation parameters when splitting ran. -/
structure AudioRun where
  transcript : Option String
  playwrightInvoked : Bool
  compressArgs : Option CompressSpec
  splitInvoked : Bool
  segmentTime : Option Nat

/-- The Whisper loop of lines 917-951: files k, k+1, ... (n of them),
each transcribed in order, appending `chunk_transcript + " "` to the
accumulator (initially "").  Any Whisper exception aborts the whole try
and the function returns None (lines 959-961). -/
def transcribeChunks (transcribe : Nat → Except String String) :
    Nat → Nat → String → Option String
  | _, 0, acc => some acc
  | k, n + 1, acc =>
    match transcribe k with
    | .ok t => transcribeChunks transcribe (k + 1) n (acc ++ t ++ " ")
    | .error _ => none

/-- Lines 858-957: the transcription phase entered once an audio file of
size finalSize bytes exists.  The OPENAI_API_KEY check (lines 864-867)
precedes the size check; a file still over the ceiling is split into
segmentSeconds-second chunks and every chunk is transcribed in order,
otherwise the single file is transcribed. -/
def whisperPhase (env : AudioEnv) (finalSize : Nat) (pw : Bool)
    (compressArgs : Option CompressSpec) : AudioRun :=
  if env.openaiKey then
    if finalSize > sizeCeilingBytes then
      { transcript := transcribeChunks env.transcribe 0 env.segmentCount "",
        playwrightInvoked := pw, compressArgs := compressArgs,
        splitInvoked := true, segmentTime := some segmentSeconds }
    else
      { transcript := transcribeChunks env.transcribe 0 1 "",
        playwrightInvoked := pw, compressArgs := compressArgs,
        splitInvoked := false, segmentTime := none }
  else
    { transcript := none, playwrightInvoked := pw, compressArgs := compressArgs,
      splitInvoked := false, segmentTime := none }

/-- Lines 846-856: the Playwright browser fallback, entered from the
outer except clause.  On success its file (never re-compressed) proceeds
to transcription; on failure the function returns None. -/
def playwrightFallback (env : AudioEnv) (compressArgs : Option CompressSpec) :
    AudioRun :=
  match env.playwright with
  | some psz => whisperPhase env psz true compressArgs
  | none =>
    { transcript := none, playwrightInvoked := true, compressArgs := compressArgs,
      splitInvoked := false, segmentTime := none }

/-- get_audio_and_transcribe (lines 763-961). -/
def get_audio_and_transcribe (env : AudioEnv) : AudioRun :=
  match env.download with
  | .raised _ => playwrightFallback env none
  | .noFile => playwrightFallback env none
  | .okFile sz =>
    if sz > sizeCeilingBytes then
      match env.compress with
      | .ok nsz => whisperPhase env nsz false (some ffmpegCompressSpec)
      | .exitError _ =>
        { transcript := none, playwrightInvoked := false,
          compressArgs := some ffmpegCompressSpec,
          splitInvoked := false, segmentTime := none }
      | .spawnError _ => playwrightFallback env (some ffmpegCompressSpec)
    else whisperPhase env sz false none

/-! ## process_video_pipeline (src/youtube_summary.py lines 435-485)

The tiered acquisition pipeline: direct Gemini video analysis (only when
GOOGLE_API_KEY is configured), then the captions CLI, then audio
download + Whisper; a successful tier short-circuits the rest, and only
when every attempted tier has failed is the single fatal no-transcript
exception raised. -/

/-- One acquisition tier. -/
inductive Tier where
  | direct : Tier
  | captions : Tier
  | audio : Tier
deriving Repr, DecidableEq

/-- The pipeline's terminal exceptions: the fatal tier-exhaustion error
of line 479, or an exception propagating from analyze_transcript.  (They
are distinct exception instances in the source.) -/
inductive PipelineError where
  | noTranscript : PipelineError
  | analyzeFailed : String → PipelineError
deriving Repr, DecidableEq

/-- Python truthiness of an optional transcript (`if not transcript`):
None and the empty string are falsy. -/
def optFalsy : Option String → Bool
  | none => true
  | some s => s.isEmpty

/-- Characters stripped from a note title by re.sub of line 327. -/
def sanitizeTitle (t : String) : String :=
  String.mk (t.data.filter (fun c =>
    !(c = '\\' || c = '/' || c = '*' || c = '?' || c = ':'
      || c = '"' || c = '<' || c = '>' || c = '|')))

/-- Lines 321-328: the first markdown heading line of the note content,
stripped and sanitized. -/
def noteTitle : List String → Option String
  | [] => none
  | l :: ls =>
    if l.startsWith "# " then some (sanitizeTitle ((l.drop 2).trim))
    else noteTitle ls

/-- save_note (lines 318-344): the produced note filename (the Notes
directory prefix is elided). -/
def save_note (content videoId : String) : String :=
  ((noteTitle (content.trim.splitOn "\n")).getD ("Video_" ++ videoId)) ++ ".md"

/-- Oracle environment of one process_video_pipeline run.  geminiResult
is the outcome of analyze_with_gemini including its internal long-video
audio-upload fallback; captionsResult is get_transcript's return value
(None on CLI failure); audio drives the audio tier; analyzeResult is the
outcome of analyze_transcript. -/
structure PipelineEnv where
  googleKey : Bool
  geminiResult : Except String String
  titleResult : Except String String
  captionsResult : Option String
  audio : AudioEnv
  analyzeResult : Except String String

/-- Observable result of a pipeline run: the returned (filename, note)
pair or the raised error, the acquisition tiers attempted in order,
whether the Playwright fallback ran, the artifact written (if any), and
the log lines emitted on the pipeline's own level. -/
structure PipelineRun where
  result : Except PipelineError (String × String)
  attempted : List Tier
  playwrightInvoked : Bool
  savedNote : Option String
  logs : List String

def fatalNoTranscriptLog : String := "嚴重錯誤：無法透過任何方式取得逐字稿。"

/-- First log emitted inside get_audio_and_transcribe (line 767),
witnessing that the audio tier was entered after the captions tier came
back empty. -/
def audioTierStartLog : String :=
  "\n[Fallback] 找不到逐字稿。嘗試進行語音轉錄 (Whisper)..."

/-- Lines 481-485: the transcript analysis and note saving shared by the
captions and audio tiers. -/
def finishAnalyze (env : PipelineEnv) (videoId : String) (tiers : List Tier)
    (pw : Bool) (logs : List String) : PipelineRun :=
  match env.analyzeResult with
  | .ok a =>
    { result := .ok (save_note a videoId, a), attempted := tiers,
      playwrightInvoked := pw, savedNote := some (save_note a videoId),
      logs := logs ++ ["正在分析內容..."] }
  | .error e =>
    { result := .error (.analyzeFailed e), attempted := tiers,
      playwrightInvoked := pw, savedNote := none,
      logs := logs ++ ["正在分析內容..."] }

/-- Lines 470-485: the transcript tiers (METHOD 2).  Captions first; an
empty or None captions result falls through to the audio tier; if that
also yields nothing truthy, the fatal no-transcript exception is raised
with no artifact produced. -/
def transcriptPhase (env : PipelineEnv) (videoId : String) (pre : List Tier)
    (logs0 : List String) : PipelineRun :=
  let logs1 := logs0 ++ ["正在取得逐字稿..."]
  if optFalsy env.captionsResult then
    let ar := get_audio_and_transcribe env.audio
    let logs2 := logs1 ++ [audioTierStartLog]
    if optFalsy ar.transcript then
      { result := .error .noTranscript,
        attempted := pre ++ [.captions, .audio],
        playwrightInvoked := ar.playwrightInvoked, savedNote := none,
        logs := logs2 ++ [fatalNoTranscriptLog] }
    else
      finishAnalyze env videoId (pre ++ [.captions, .audio])
        ar.playwrightInvoked logs2
  else
    finishAnalyze env videoId (pre ++ [.captions]) false logs1

/-- Lines 440-454: the id log and the title fetch log; the title fetch
failure is non-fatal. -/
def titleLogs (env : PipelineEnv) (videoId : String) : List String :=
  ["處理影片 ID: " ++ videoId] ++ (match env.titleResult with
    | .ok t => ["影片標題: " ++ t]
    | .error e => ["警告：無法取得影片標題 (" ++ e ++ ")。繼續執行。"])

/-- process_video_pipeline (lines 435-485) for an already-extracted video
id.  The Gemini direct tier runs only when GOOGLE_API_KEY is configured
(lines 456-468) and any exception from it falls back to the transcript
tiers. -/
def process_video_pipeline (env : PipelineEnv) (videoId : String) :
    PipelineRun :=
  let logs1 := titleLogs env videoId
  if env.googleKey then
    match env.geminiResult with
    | .ok analysis =>
      { result := .ok (save_note analysis videoId, analysis),
        attempted := [.direct], playwrightInvoked := false,
        savedNote := some (save_note analysis videoId),
        logs := logs1 ++ ["嘗試使用 Gemini 直接分析影片..."] }
    | .error e =>
      transcriptPhase env videoId [.direct]
        (logs1 ++ ["嘗試使用 Gemini 直接分析影片...",
                   "Gemini 分析失敗: " ++ e, "改用傳統逐字稿方法..."])
  else
    transcriptPhase env videoId []
      (logs1 ++ ["未設定 GOOGLE_API_KEY，跳過 Gemini 分析..."])

/-! ## Auxiliary definitions used by the theorems -/

/-- The deterministic per-page result the batch scheduler is proved to
collect at each input position: the page's AI outcome, with the same
placeholder substitutions the loop of lines 561-568 performs. -/
def pageResult (outcome : Int → PageOutcome) (idx : Int) (img : Img) :
    JValue × Img :=
  match process_single_page outcome idx img with
  | some p => p
  | none => (gatherErrorPlaceholder, img)

/-- All images the run rasterizes (or substitutes), batch by batch, in
submission order. -/
def allBatchImages (conv : List Int → ConvOutcome) (batches : List (List Int)) :
    List Img :=
  (batches.map (batchImages conv)).flatten

/-- Validity of the completion schedules: starting from batch counter k,
the schedule of each batch is a permutation of the submission indices of
that batch's tasks. -/
def ValidScheds (scheds : Nat → List Nat) (k : Nat)
    (batches : List (List Int)) : Prop :=
  ∀ i, i < batches.length →
    (scheds (k + i)).Perm (List.range (batches.getD i []).length)

/-- A concrete quota-exhaustion message of the class matched by line 131
of src/slide_generator.py. -/
def quotaExampleMsg : String :=
  "429 RESOURCE_EXHAUSTED: You exceeded your current quota."

/-- The transcript Whisper returns for the k-th processed audio file. -/
def chunkText (transcribe : Nat → Except String String) (k : Nat) : String :=
  match transcribe k with
  | .ok t => t
  | .error _ => ""

/-- Concrete pipeline environment in which every acquisition tier fails:
the Gemini direct call raises, the captions CLI returns nothing, and the
yt-dlp download raises with the Playwright fallback also failing. -/
def pipelineEnvAllFail : PipelineEnv :=
  { googleKey := true,
    geminiResult := .error "quota",
    titleResult := .error "bot detected",
    captionsResult := none,
    audio := { download := .raised "bot", compress := .ok 0,
               playwright := none, openaiKey := true, segmentCount := 0,
               transcribe := fun _ => .error "" },
    analyzeResult := .ok "# Note" }

/-- Concrete audio environment: a 30 MiB download, re-encoded to 26 MiB
(still over the ceiling), split into two segments that transcribe to
hello and world. -/
def audioEnvW : AudioEnv :=
  { download := .okFile (30 * 1024 * 1024),
    compress := .ok (26 * 1024 * 1024),
    playwright := none,
    openaiKey := true,
    segmentCount := 2,
    transcribe := fun k => .ok (if k = 0 then "hello" else "world") }

/-- Concrete audio environment: the yt-dlp download succeeds and leaves a
25 MiB file on disk, but launching ffmpeg for the oversize re-encode
fails with an exception that is not a CalledProcessError (the binary is
absent). -/
def audioEnvCE : AudioEnv :=
  { download := .okFile (25 * 1024 * 1024),
    compress := .spawnError "FileNotFoundError: ffmpeg",
    playwright := none,
    openaiKey := true,
    segmentCount := 0,
    transcribe := fun _ => .error "unused" }

/-! ## Helper lemmas -/

theorem chunkBatches_flatten (l : List Int) : (chunkBatches l).flatten = l := by
  induction l using chunkBatches.induct with
  | case1 => rfl
  | case2 a => rfl
  | case3 a b => rfl
  | case4 a b c rest ih => simp [chunkBatches, ih]

theorem chunkBatches_sizes (l : List Int) :
    ∀ b ∈ chunkBatches l, 1 ≤ b.length ∧ b.length ≤ BATCH_SIZE := by
  induction l using chunkBatches.induct with
  | case1 => intro b hb; simp [chunkBatches] at hb
  | case2 a =>
    intro b hb
    simp only [chunkBatches, List.mem_singleton] at hb
    subst hb
    constructor <;> simp [BATCH_SIZE]
  | case3 a c =>
    intro b hb
    simp only [chunkBatches, List.mem_singleton] at hb
    subst hb
    constructor <;> simp [BATCH_SIZE]
  | case4 a c d rest ih =>
    intro b hb
    simp only [chunkBatches, List.mem_cons] at hb
    rcases hb with hb | hb
    · subst hb
      constructor <;> simp [BATCH_SIZE]
    · exact ih b hb

theorem buildBatches_flatten (t : List Int) : (buildBatches t).flatten = t := by
  cases t with
  | nil => rfl
  | cons x rest =>
    simp only [buildBatches, List.flatten_cons, chunkBatches_flatten]
    rfl

theorem foldl_set_length {α : Type} (f : Nat → α) (s : List Nat) (acc : List α) :
    (s.foldl (fun a i => a.set i (f i)) acc).length = acc.length := by
  induction s generalizing acc with
  | nil => rfl
  | cons i s ih => simp only [List.foldl_cons, ih, List.length_set]

theorem foldl_set_getElem? {α : Type} (f : Nat → α) (s : List Nat)
    (acc : List α) (j : Nat) :
    (s.foldl (fun a i => a.set i (f i)) acc)[j]? =
      if j ∈ s ∧ j < acc.length then some (f j) else acc[j]? := by
  induction s generalizing acc with
  | nil => simp
  | cons i s ih =>
    simp only [List.foldl_cons]
    rw [ih]
    simp only [List.length_set, List.mem_cons, List.getElem?_set]
    by_cases hs : j ∈ s <;> by_cases hij : i = j <;> by_cases hj : j < acc.length
    · simp [hs, hij, hj]
    · have hnone : acc[j]? = none := List.getElem?_eq_none (by omega)
      subst hij
      simp [hs, hj, hnone]
    · simp [hs, hij, hj]
    · have hij' : ¬ j = i := fun hh => hij hh.symm
      simp [hs, hij, hij', hj]
    · subst hij
      simp [hs, hj]
    · have hnone : acc[j]? = none := List.getElem?_eq_none (by omega)
      subst hij
      simp [hs, hj, hnone]
    · have hij' : ¬ j = i := fun hh => hij hh.symm
      simp [hs, hij, hij', hj]
    · have hij' : ¬ j = i := fun hh => hij hh.symm
      simp [hs, hij, hij', hj]

theorem length_gatherSlots {α : Type} (d : α) (tasks : List α)
    (s : List Nat) : (gatherSlots d tasks s).length = tasks.length := by
  unfold gatherSlots
  rw [foldl_set_length]
  simp

theorem gatherSlots_of_perm {α : Type} (d : α) (tasks : List α) (s : List Nat)
    (h : s.Perm (List.range tasks.length)) : gatherSlots d tasks s = tasks := by
  apply List.ext_getElem?
  intro j
  unfold gatherSlots
  rw [foldl_set_getElem?]
  simp only [List.length_replicate]
  by_cases hj : j < tasks.length
  · have hmem : j ∈ s := (h.mem_iff).2 (List.mem_range.2 hj)
    rw [if_pos ⟨hmem, hj⟩]
    rw [List.getD_eq_getElem?_getD, List.getElem?_eq_getElem hj]
    rfl
  · have hmem : j ∉ s := fun hc => hj (List.mem_range.1 (h.mem_iff.1 hc))
    rw [if_neg (fun hc => hmem hc.1)]
    rw [List.getElem?_replicate]
    rw [if_neg hj]
    exact (List.getElem?_eq_none (by omega)).symm

theorem length_batchImages (conv : List Int → ConvOutcome) (bi : List Int) :
    (batchImages conv bi).length = bi.length := by
  unfold batchImages
  cases conv bi with
  | ok l =>
    simp only [List.length_take, List.length_append, List.length_replicate]
    omega
  | timeout =>
    simp [List.length_take, List.length_append, List.length_replicate,
      List.length_map]
  | error =>
    simp [List.length_take, List.length_append, List.length_replicate,
      List.length_map]

theorem runBatch_length (conv : List Int → ConvOutcome)
    (outcome : Int → PageOutcome) (sched : List Nat) (bi : List Int) :
    (runBatch conv outcome sched bi).length = bi.length := by
  unfold runBatch
  rw [List.length_zipWith, length_gatherSlots, List.length_zipWith,
    length_batchImages]
  omega

theorem runBatches_length (conv : List Int → ConvOutcome)
    (outcome : Int → PageOutcome) (scheds : Nat → List Nat) :
    ∀ (batches : List (List Int)) (k : Nat),
      (runBatches conv outcome scheds k batches).length
        = batches.flatten.length := by
  intro batches
  induction batches with
  | nil => intro k; rfl
  | cons bi rest ih =>
    intro k
    simp only [runBatches, List.length_append, runBatch_length, ih,
      List.flatten_cons]

theorem zipWith_collect_eq (outcome : Int → PageOutcome) :
    ∀ (bi : List Int) (imgs : List Img),
      List.zipWith (fun img r => match r with
          | some p => p
          | none => (gatherErrorPlaceholder, img)) imgs
        (List.zipWith (process_single_page outcome) bi imgs)
      = List.zipWith (pageResult outcome) bi imgs := by
  intro bi
  induction bi with
  | nil => intro imgs; cases imgs <;> rfl
  | cons i bi ih =>
    intro imgs
    cases imgs with
    | nil => rfl
    | cons img imgs =>
      simp only [List.zipWith_cons_cons, ih]
      rfl

theorem runBatch_of_perm (conv : List Int → ConvOutcome)
    (outcome : Int → PageOutcome) (sched : List Nat) (bi : List Int)
    (h : sched.Perm (List.range bi.length)) :
    runBatch conv outcome sched bi
      = List.zipWith (pageResult outcome) bi (batchImages conv bi) := by
  have hlen : (List.zipWith (process_single_page outcome) bi
      (batchImages conv bi)).length = bi.length := by
    rw [List.length_zipWith, length_batchImages]; omega
  have hdef : runBatch conv outcome sched bi
      = List.zipWith (fun img r => match r with
          | some p => p
          | none => (gatherErrorPlaceholder, img)) (batchImages conv bi)
          (gatherSlots none
            (List.zipWith (process_single_page outcome) bi (batchImages conv bi))
            sched) := rfl
  rw [hdef, gatherSlots_of_perm _ _ _ (by rw [hlen]; exact h)]
  exact zipWith_collect_eq outcome bi (batchImages conv bi)

theorem runBatches_of_perm (conv : List Int → ConvOutcome)
    (outcome : Int → PageOutcome) (scheds : Nat → List Nat) :
    ∀ (batches : List (List Int)) (k : Nat), ValidScheds scheds k batches →
      runBatches conv outcome scheds k batches
        = List.zipWith (pageResult outcome) batches.flatten
            (allBatchImages conv batches) := by
  intro batches
  induction batches with
  | nil => intro k _; rfl
  | cons bi rest ih =>
    intro k h
    have h0 : (scheds k).Perm (List.range bi.length) := by
      have := h 0 (by simp)
      simpa using this
    have hrest : ValidScheds scheds (k + 1) rest := by
      intro i hi
      have := h (i + 1) (by simpa using Nat.succ_lt_succ hi)
      have hk : k + (i + 1) = k + 1 + i := by omega
      rw [hk] at this
      simpa using this
    simp only [runBatches, runBatch_of_perm conv outcome _ _ h0, ih _ hrest,
      allBatchImages, List.map_cons, List.flatten_cons]
    rw [List.zipWith_append _ _ _ _ _ (length_batchImages conv bi).symm]

/-! ## Claim theorems for the Gemini vision retry layer -/

/-- C9: for every vision response whose body parses as a JSON array,
analyze_slide_with_gemini takes the first element as the analysis result
when the array is non-empty; an empty array falls back to an empty JSON
object (which then only receives the two default colour fields), and the
call returns a value rather than crashing. -/
theorem json_array_response_selection :
    (∀ (x : JValue) (xs : List JValue), selectFromList (.jarr (x :: xs)) = x)
    ∧ selectFromList (.jarr []) = .jobj []
    ∧ analyze_slide_with_gemini true (fun _ => .ok (.jarr []))
        = (.jobj [("background_color_hex", .jstr "#FFFFFF"),
                  ("text_color_hex", .jstr "#000000")], []) := by
  refine ⟨fun x xs => rfl, rfl, ?_⟩
  rfl

/-- C4 counterexample: an external call that fails with a quota-exhaustion
error on every one of the three attempts IS converted into the placeholder
analysis result by analyze_slide_with_gemini (after backoff sleeps of base
2 s and 4 s); nothing propagates to the caller.  This contradicts the
claim that quota errors always propagate and are never turned into
placeholders. -/
theorem quota_error_becomes_placeholder :
    analyze_slide_with_gemini true (fun _ => .err quotaExampleMsg)
      = (finalFailurePlaceholder quotaExampleMsg, [2, 4])
    ∧ isRateLimitError quotaExampleMsg = true := by
  constructor
  · rfl
  · decide

/-- C4 amended: a quota/billing-exhaustion error is recognized as the
retriable rate-limit class and retried with exponential backoff; when it
persists through all three attempts, analyze_slide_with_gemini converts it
into a placeholder analysis result whose content carries the quota error
text, instead of propagating it to the caller. -/
theorem quota_exhaustion_retried_then_placeholder
    (oracle : Nat → Attempt)
    (h : ∀ i, i < maxRetries → ∃ m, oracle i = .err m ∧ isRateLimitError m = true) :
    ∃ m, oracle (maxRetries - 1) = .err m
      ∧ analyze_slide_with_gemini true oracle = (finalFailurePlaceholder m, [2, 4])
      ∧ jGet (finalFailurePlaceholder m) "content"
          = some (.jarr [.jstr ("錯誤: " ++ m), .jstr "請稍後再試或更換 API Key"]) := by
  obtain ⟨m0, h0, r0⟩ := h 0 (by decide)
  obtain ⟨m1, h1, r1⟩ := h 1 (by decide)
  obtain ⟨m2, h2, r2⟩ := h 2 (by decide)
  refine ⟨m2, h2, ?_, ?_⟩
  · show geminiAttemptLoop oracle (List.range maxRetries) = _
    have hr : List.range maxRetries = [0, 1, 2] := rfl
    rw [hr]
    rw [geminiAttemptLoop, h0]
    simp only [r0, maxRetries, Bool.true_and, decide_eq_true_eq]
    rw [if_pos (by decide)]
    rw [geminiAttemptLoop, h1]
    simp only [r1, Bool.true_and]
    rw [if_pos (by decide)]
    rw [geminiAttemptLoop, h2]
    simp only [r2, Bool.true_and]
    rw [if_neg (by decide), if_pos (by decide)]
    simp [baseDelay]
  · rfl

/-- Witness for the amended C4 theorem at a concrete always-quota
oracle. -/
theorem quota_exhaustion_retried_then_placeholder_witness :
    ∃ m, (fun _ => Attempt.err quotaExampleMsg) (maxRetries - 1) = Attempt.err m
      ∧ analyze_slide_with_gemini true (fun _ => Attempt.err quotaExampleMsg)
          = (finalFailurePlaceholder m, [2, 4])
      ∧ jGet (finalFailurePlaceholder m) "content"
          = some (.jarr [.jstr ("錯誤: " ++ m), .jstr "請稍後再試或更換 API Key"]) :=
  quota_exhaustion_retried_then_placeholder (fun _ => .err quotaExampleMsg)
    (fun i _ => ⟨quotaExampleMsg, rfl, by decide⟩)

/-! ## Claim theorem for the batch partition -/

/-- C3: for every non-empty target-index sequence, the batch partition of
analyze_presentation puts exactly the first page alone into the first
batch, every subsequent batch has between 1 and BATCH_SIZE = 3 pages, and
concatenating the batches restores the original sequence. -/
theorem batch_partition_shape (t : List Int) (h : t ≠ []) :
    (buildBatches t).head? = some [t.headI]
    ∧ (∀ b ∈ (buildBatches t).tail, 1 ≤ b.length ∧ b.length ≤ BATCH_SIZE)
    ∧ (buildBatches t).flatten = t := by
  obtain ⟨x, rest, rfl⟩ := List.exists_cons_of_ne_nil h
  refine ⟨rfl, ?_, buildBatches_flatten _⟩
  intro b hb
  exact chunkBatches_sizes rest b hb

/-- Witness for the batch partition theorem on a concrete 8-page
selection: batches are [0], [1,2,3], [4,5,6], [7]. -/
theorem batch_partition_shape_witness :
    (buildBatches [0, 1, 2, 3, 4, 5, 6, 7]).head? = some [(0 : Int)]
    ∧ (∀ b ∈ (buildBatches [0, 1, 2, 3, 4, 5, 6, 7]).tail,
        1 ≤ b.length ∧ b.length ≤ BATCH_SIZE)
    ∧ (buildBatches [0, 1, 2, 3, 4, 5, 6, 7]).flatten = [0, 1, 2, 3, 4, 5, 6, 7] :=
  batch_partition_shape [0, 1, 2, 3, 4, 5, 6, 7] (by decide)

/-! ## Claim theorems for the batched analysis run -/

theorem analyze_presentation_eq (total : Nat) (selected : Option (List Int))
    (conv : List Int → ConvOutcome) (outcome : Int → PageOutcome)
    (scheds : Nat → List Nat) :
    analyze_presentation total selected conv outcome scheds =
      (if (targetIndices selected total).isEmpty then
        (⟨[], [], [], []⟩ : AnalyzeRun)
      else
        ⟨(runBatches conv outcome scheds 0
            (buildBatches (targetIndices selected total))).map Prod.fst,
         (runBatches conv outcome scheds 0
            (buildBatches (targetIndices selected total))).map Prod.snd,
         buildBatches (targetIndices selected total),
         (buildBatches (targetIndices selected total)).flatten⟩) := rfl

/-- C1: every run of analyze_presentation returns exactly as many
analysis results and as many cleaned images as there are selected pages,
whatever the per-page AI outcomes (success, exception, timeout,
cancellation), the rasterizer behaviour and the task completion orders:
failed pages receive placeholder results instead of being dropped. -/
theorem analysis_unit_count_preserved (total : Nat)
    (selected : Option (List Int)) (conv : List Int → ConvOutcome)
    (outcome : Int → PageOutcome) (scheds : Nat → List Nat) :
    (analyze_presentation total selected conv outcome scheds).analyses.length
        = (targetIndices selected total).length
    ∧ (analyze_presentation total selected conv outcome
        scheds).cleaned_images.length
        = (targetIndices selected total).length := by
  rw [analyze_presentation_eq]
  by_cases h : (targetIndices selected total).isEmpty
  · rw [if_pos h]
    rw [List.isEmpty_iff] at h
    rw [h]
    exact ⟨rfl, rfl⟩
  · rw [if_neg h]
    constructor
    · show ((runBatches conv outcome scheds 0
          (buildBatches (targetIndices selected total))).map Prod.fst).length = _
      rw [List.length_map, runBatches_length, buildBatches_flatten]
    · show ((runBatches conv outcome scheds 0
          (buildBatches (targetIndices selected total))).map Prod.snd).length = _
      rw [List.length_map, runBatches_length, buildBatches_flatten]

/-- C2: whenever every batch's completion schedule is a permutation of
its submission indices (i.e. under EVERY possible completion order of the
concurrently running tasks), the i-th analysis result and the i-th
cleaned image of analyze_presentation are the deterministic pageResult of
the i-th entry of the target-index sequence: output order equals input
order, independent of the schedules. -/
theorem analysis_order_independent_of_completion (total : Nat)
    (selected : Option (List Int)) (conv : List Int → ConvOutcome)
    (outcome : Int → PageOutcome) (scheds : Nat → List Nat)
    (hs : ValidScheds scheds 0 (buildBatches (targetIndices selected total))) :
    (analyze_presentation total selected conv outcome scheds).analyses
      = List.zipWith (fun idx img => (pageResult outcome idx img).1)
          (targetIndices selected total)
          (allBatchImages conv (buildBatches (targetIndices selected total)))
    ∧ (analyze_presentation total selected conv outcome scheds).cleaned_images
      = List.zipWith (fun idx img => (pageResult outcome idx img).2)
          (targetIndices selected total)
          (allBatchImages conv (buildBatches (targetIndices selected total))) := by
  rw [analyze_presentation_eq]
  by_cases h : (targetIndices selected total).isEmpty
  · rw [if_pos h]
    rw [List.isEmpty_iff] at h
    rw [h]
    exact ⟨rfl, rfl⟩
  · rw [if_neg h]
    have hrun := runBatches_of_perm conv outcome scheds
      (buildBatches (targetIndices selected total)) 0 hs
    constructor
    · show (runBatches conv outcome scheds 0
          (buildBatches (targetIndices selected total))).map Prod.fst = _
      rw [hrun, buildBatches_flatten, List.map_zipWith]
    · show (runBatches conv outcome scheds 0
          (buildBatches (targetIndices selected total))).map Prod.snd = _
      rw [hrun, buildBatches_flatten, List.map_zipWith]

/-- Witness for the ordering theorem: a 4-page document whose second
batch completes out of order (task 2 first, then 0, then 1). -/
theorem analysis_order_independent_of_completion_witness :
    (analyze_presentation 4 none (fun bi => ConvOutcome.ok (bi.map Img.page))
        (fun i => PageOutcome.ok (.jnum i) (Img.edited i))
        (fun b => if b = 0 then [0] else [2, 0, 1])).analyses
      = List.zipWith (fun idx img =>
          (pageResult (fun i => PageOutcome.ok (.jnum i) (Img.edited i)) idx img).1)
          (targetIndices none 4)
          (allBatchImages (fun bi => ConvOutcome.ok (bi.map Img.page))
            (buildBatches (targetIndices none 4)))
    ∧ (analyze_presentation 4 none (fun bi => ConvOutcome.ok (bi.map Img.page))
        (fun i => PageOutcome.ok (.jnum i) (Img.edited i))
        (fun b => if b = 0 then [0] else [2, 0, 1])).cleaned_images
      = List.zipWith (fun idx img =>
          (pageResult (fun i => PageOutcome.ok (.jnum i) (Img.edited i)) idx img).2)
          (targetIndices none 4)
          (allBatchImages (fun bi => ConvOutcome.ok (bi.map Img.page))
            (buildBatches (targetIndices none 4))) :=
  analysis_order_independent_of_completion 4 none
    (fun bi => ConvOutcome.ok (bi.map Img.page))
    (fun i => PageOutcome.ok (.jnum i) (Img.edited i))
    (fun b => if b = 0 then [0] else [2, 0, 1])
    (fun i hi =>
      match i with
      | 0 => by decide
      | 1 => by decide
      | n + 2 => absurd hi (by
          rw [show (buildBatches (targetIndices none 4)).length = 2 from rfl]
          omega))

/-- C10 counterexample: a caller-supplied page selection [] contains no
in-range index, yet analyze_presentation on a 1-page document does not
return a pair of empty lists: Python falsiness treats the empty selection
like no selection, so page 0 is processed (one AI call is issued and one
analysis produced). -/
theorem empty_selection_processes_all_pages :
    (analyze_presentation 1 (some []) (fun _ => ConvOutcome.error)
        (fun _ => PageOutcome.timeout) (fun _ => [0])).aiCalls = [0]
    ∧ (analyze_presentation 1 (some []) (fun _ => ConvOutcome.error)
        (fun _ => PageOutcome.timeout) (fun _ => [0])).analyses.length = 1
    ∧ targetIndices (some []) 1 = [0] := by
  exact ⟨rfl, rfl, rfl⟩

/-- C10 amended: for every call with a NON-EMPTY caller-supplied page
selection, the pages actually processed (the aiCalls trace) are exactly
the selected indices that lie in [0, total), in ascending order; when no
selected index is in range the function returns empty result lists and
issues no rasterization and no AI call.  An empty selection list is
treated exactly like an absent selection (all pages). -/
theorem selected_pages_processed (total : Nat) (sel : List Int)
    (conv : List Int → ConvOutcome) (outcome : Int → PageOutcome)
    (scheds : Nat → List Nat) (h : sel ≠ []) :
    (analyze_presentation total (some sel) conv outcome scheds).aiCalls
        = List.insertionSort (· ≤ ·) (sel.filter (inRangeIdx total))
    ∧ (analyze_presentation total (some sel) conv outcome scheds).aiCalls.Perm
        (sel.filter (inRangeIdx total))
    ∧ List.Sorted (· ≤ ·)
        (analyze_presentation total (some sel) conv outcome scheds).aiCalls
    ∧ (sel.filter (inRangeIdx total) = [] →
        analyze_presentation total (some sel) conv outcome scheds
          = ⟨[], [], [], []⟩)
    ∧ targetIndices (some []) total = targetIndices none total := by
  have htarget : targetIndices (some sel) total
      = List.insertionSort (· ≤ ·) (sel.filter (inRangeIdx total)) := by
    cases sel with
    | nil => exact absurd rfl h
    | cons a l => rfl
  have haiCalls : (analyze_presentation total (some sel) conv outcome
      scheds).aiCalls = targetIndices (some sel) total := by
    rw [analyze_presentation_eq]
    by_cases he : (targetIndices (some sel) total).isEmpty
    · rw [if_pos he]
      rw [List.isEmpty_iff] at he
      rw [he]
    · rw [if_neg he]
      exact buildBatches_flatten _
  refine ⟨?_, ?_, ?_, ?_, rfl⟩
  · rw [haiCalls, htarget]
  · rw [haiCalls, htarget]
    exact List.perm_insertionSort _ _
  · rw [haiCalls, htarget]
    exact List.sorted_insertionSort _ _
  · intro hf
    rw [analyze_presentation_eq, if_pos (by rw [htarget, hf]; rfl)]

/-- Witness for the amended C10 theorem: selection [7, 2, 100] on a
10-page document. -/
theorem selected_pages_processed_witness :
    (analyze_presentation 10 (some [7, 2, 100]) (fun _ => ConvOutcome.error)
        (fun _ => PageOutcome.timeout) (fun _ => [])).aiCalls
        = List.insertionSort (· ≤ ·) ([7, 2, 100].filter (inRangeIdx 10))
    ∧ (analyze_presentation 10 (some [7, 2, 100]) (fun _ => ConvOutcome.error)
        (fun _ => PageOutcome.timeout) (fun _ => [])).aiCalls.Perm
        ([7, 2, 100].filter (inRangeIdx 10))
    ∧ List.Sorted (· ≤ ·)
        (analyze_presentation 10 (some [7, 2, 100]) (fun _ => ConvOutcome.error)
          (fun _ => PageOutcome.timeout) (fun _ => [])).aiCalls
    ∧ ([7, 2, 100].filter (inRangeIdx 10) = [] →
        analyze_presentation 10 (some [7, 2, 100]) (fun _ => ConvOutcome.error)
          (fun _ => PageOutcome.timeout) (fun _ => []) = ⟨[], [], [], []⟩)
    ∧ targetIndices (some []) 10 = targetIndices none 10 :=
  selected_pages_processed 10 [7, 2, 100] (fun _ => ConvOutcome.error)
    (fun _ => PageOutcome.timeout) (fun _ => []) (by decide)

/-! ## Claim theorem for the single-flight guard -/

theorem runLoop_exits (iters : List LoopIter) :
    (runLoop iters).2 = iters.any (fun it => stepTerminates it.step) := by
  induction iters with
  | nil => rfl
  | cons it rest ih =>
    rcases it with ⟨drained, step⟩
    cases step with
    | futureDone r =>
      cases r with
      | error e => simp [runLoop, stepTerminates]
      | ok p =>
        rcases p with ⟨fn, content⟩
        simp [runLoop, stepTerminates]
    | timeExceeded => simp [runLoop, stepTerminates]
    | queueMsg m => simp [runLoop, stepTerminates, ih]
    | waitTimeout => simp [runLoop, stepTerminates, ih]
    | sysError e => simp [runLoop, stepTerminates]

/-- C5: the single-flight guard.  (i) A request arriving while
processing_lock is held is answered with exactly the connecting log and
the distinct busy error; it acquires nothing, starts no job, and leaves
the lock with its holder, whatever later observations would have been --
it is neither queued nor retried.  (ii) A request arriving when the lock
is free acquires it and starts the job.  (iii) The lock is released
exactly when the polling loop exits, and each exit cause -- worker
completion or error (futureDone) and the 600 s wall-clock ceiling
(timeExceeded) -- is a terminating step.  (iv) After any terminated run,
the next request finds the lock free and is accepted. -/
theorem single_flight_guard (env : EnvInfo) (iters : List LoopIter) :
    (event_generator true env iters
        = { events := [connectingLog, busyError], acquired := false,
            lockHeldAfter := true, jobStarted := false })
    ∧ (event_generator false env iters).acquired = true
    ∧ (event_generator false env iters).jobStarted = true
    ∧ ((event_generator false env iters).lockHeldAfter = false
        ↔ iters.any (fun it => stepTerminates it.step) = true)
    ∧ (∀ r, stepTerminates (.futureDone r) = true)
    ∧ stepTerminates .timeExceeded = true
    ∧ (∀ (env2 : EnvInfo) (iters2 : List LoopIter),
        iters.any (fun it => stepTerminates it.step) = true →
        (event_generator ((event_generator false env iters).lockHeldAfter)
            env2 iters2).acquired = true) := by
  refine ⟨rfl, rfl, rfl, ?_, fun r => rfl, rfl, ?_⟩
  · show (!(runLoop iters).2) = false ↔ _
    rw [runLoop_exits]
    simp
  · intro env2 iters2 hterm
    have hrel : (event_generator false env iters).lockHeldAfter = false := by
      show (!(runLoop iters).2) = false
      rw [runLoop_exits, hterm]
      rfl
    rw [hrel]
    rfl

/-- Witness for the single-flight theorem: a run whose only polling
iteration observes the worker future completed; the follow-up request is
accepted. -/
theorem single_flight_guard_witness :
    (event_generator
        ((event_generator false ⟨false, 0, "c"⟩
            [⟨["m"], .futureDone (.ok ("out/a.md", "note"))⟩]).lockHeldAfter)
        ⟨true, 2, "c"⟩ []).acquired = true :=
  (single_flight_guard ⟨false, 0, "c"⟩
      [⟨["m"], .futureDone (.ok ("out/a.md", "note"))⟩]).2.2.2.2.2.2
    ⟨true, 2, "c"⟩ [] (by decide)

/-! ## Claim theorem for the tiered acquisition pipeline -/

theorem finishAnalyze_ok (env : PipelineEnv) (videoId : String)
    (tiers : List Tier) (pw : Bool) (logs : List String) (a : String)
    (ha : env.analyzeResult = .ok a) :
    finishAnalyze env videoId tiers pw logs
      = { result := .ok (save_note a videoId, a), attempted := tiers,
          playwrightInvoked := pw, savedNote := some (save_note a videoId),
          logs := logs ++ ["正在分析內容..."] } := by
  unfold finishAnalyze
  rw [ha]

theorem finishAnalyze_err (env : PipelineEnv) (videoId : String)
    (tiers : List Tier) (pw : Bool) (logs : List String) (e : String)
    (he : env.analyzeResult = .error e) :
    finishAnalyze env videoId tiers pw logs
      = { result := .error (.analyzeFailed e), attempted := tiers,
          playwrightInvoked := pw, savedNote := none,
          logs := logs ++ ["正在分析內容..."] } := by
  unfold finishAnalyze
  rw [he]

theorem transcriptPhase_captions_success (env : PipelineEnv)
    (videoId : String) (pre : List Tier) (logs0 : List String)
    (hc : optFalsy env.captionsResult = false) :
    transcriptPhase env videoId pre logs0
      = finishAnalyze env videoId (pre ++ [.captions]) false
          (logs0 ++ ["正在取得逐字稿..."]) := by
  unfold transcriptPhase
  simp [hc]

theorem transcriptPhase_audio_success (env : PipelineEnv)
    (videoId : String) (pre : List Tier) (logs0 : List String)
    (hc : optFalsy env.captionsResult = true)
    (ha : optFalsy (get_audio_and_transcribe env.audio).transcript = false) :
    transcriptPhase env videoId pre logs0
      = finishAnalyze env videoId (pre ++ [.captions, .audio])
          (get_audio_and_transcribe env.audio).playwrightInvoked
          ((logs0 ++ ["正在取得逐字稿..."]) ++ [audioTierStartLog]) := by
  unfold transcriptPhase
  simp [hc, ha]

theorem transcriptPhase_fatal (env : PipelineEnv) (videoId : String)
    (pre : List Tier) (logs0 : List String)
    (hc : optFalsy env.captionsResult = true)
    (ha : optFalsy (get_audio_and_transcribe env.audio).transcript = true) :
    transcriptPhase env videoId pre logs0
      = { result := .error .noTranscript,
          attempted := pre ++ [.captions, .audio],
          playwrightInvoked :=
            (get_audio_and_transcribe env.audio).playwrightInvoked,
          savedNote := none,
          logs := ((logs0 ++ ["正在取得逐字稿..."]) ++ [audioTierStartLog])
            ++ [fatalNoTranscriptLog] } := by
  unfold transcriptPhase
  simp [hc, ha]

theorem pipeline_direct_ok (env : PipelineEnv) (videoId : String)
    (a : String) (hk : env.googleKey = true) (hg : env.geminiResult = .ok a) :
    process_video_pipeline env videoId
      = { result := .ok (save_note a videoId, a), attempted := [.direct],
          playwrightInvoked := false,
          savedNote := some (save_note a videoId),
          logs := titleLogs env videoId
            ++ ["嘗試使用 Gemini 直接分析影片..."] } := by
  unfold process_video_pipeline
  rw [hk, hg]
  simp

theorem pipeline_direct_err (env : PipelineEnv) (videoId : String)
    (e : String) (hk : env.googleKey = true)
    (hg : env.geminiResult = .error e) :
    process_video_pipeline env videoId
      = transcriptPhase env videoId [.direct]
          (titleLogs env videoId ++ ["嘗試使用 Gemini 直接分析影片...",
            "Gemini 分析失敗: " ++ e, "改用傳統逐字稿方法..."]) := by
  unfold process_video_pipeline
  rw [hk, hg]
  simp

theorem pipeline_no_key (env : PipelineEnv) (videoId : String)
    (hk : env.googleKey = false) :
    process_video_pipeline env videoId
      = transcriptPhase env videoId []
          (titleLogs env videoId
            ++ ["未設定 GOOGLE_API_KEY，跳過 Gemini 分析..."]) := by
  unfold process_video_pipeline
  rw [hk]
  simp

theorem finishAnalyze_attempted (env : PipelineEnv) (videoId : String)
    (tiers : List Tier) (pw : Bool) (logs : List String) :
    (finishAnalyze env videoId tiers pw logs).attempted = tiers := by
  unfold finishAnalyze
  cases env.analyzeResult <;> rfl

theorem finishAnalyze_logs (env : PipelineEnv) (videoId : String)
    (tiers : List Tier) (pw : Bool) (logs : List String) :
    (finishAnalyze env videoId tiers pw logs).logs
      = logs ++ ["正在分析內容..."] := by
  unfold finishAnalyze
  cases env.analyzeResult <;> rfl

theorem finishAnalyze_not_fatal (env : PipelineEnv) (videoId : String)
    (tiers : List Tier) (pw : Bool) (logs : List String) :
    (finishAnalyze env videoId tiers pw logs).result
      ≠ .error .noTranscript := by
  unfold finishAnalyze
  cases env.analyzeResult <;> simp

theorem transcriptPhase_attempted (env : PipelineEnv) (videoId : String)
    (pre : List Tier) (logs0 : List String) :
    (transcriptPhase env videoId pre logs0).attempted
      = pre ++ (if optFalsy env.captionsResult then [Tier.captions, Tier.audio]
                else [Tier.captions]) := by
  by_cases hc : optFalsy env.captionsResult = true
  · by_cases ha : optFalsy (get_audio_and_transcribe env.audio).transcript = true
    · rw [transcriptPhase_fatal env videoId pre logs0 hc ha]
      simp [hc]
    · rw [transcriptPhase_audio_success env videoId pre logs0 hc
        (Bool.of_not_eq_true ha), finishAnalyze_attempted]
      simp [hc]
  · rw [transcriptPhase_captions_success env videoId pre logs0
      (Bool.of_not_eq_true hc), finishAnalyze_attempted]
    simp [Bool.of_not_eq_true hc]

theorem transcriptPhase_fatal_iff (env : PipelineEnv) (videoId : String)
    (pre : List Tier) (logs0 : List String) :
    (transcriptPhase env videoId pre logs0).result = .error .noTranscript
      ↔ (optFalsy env.captionsResult = true
         ∧ optFalsy (get_audio_and_transcribe env.audio).transcript = true) := by
  by_cases hc : optFalsy env.captionsResult = true
  · by_cases ha : optFalsy (get_audio_and_transcribe env.audio).transcript = true
    · rw [transcriptPhase_fatal env videoId pre logs0 hc ha]
      simp [hc, ha]
    · rw [transcriptPhase_audio_success env videoId pre logs0 hc
        (Bool.of_not_eq_true ha)]
      simp [hc, ha, finishAnalyze_not_fatal]
  · rw [transcriptPhase_captions_success env videoId pre logs0
      (Bool.of_not_eq_true hc)]
    simp [hc, finishAnalyze_not_fatal]

theorem transcriptPhase_audio_log (env : PipelineEnv) (videoId : String)
    (pre : List Tier) (logs0 : List String)
    (hc : optFalsy env.captionsResult = true) :
    audioTierStartLog ∈ (transcriptPhase env videoId pre logs0).logs := by
  by_cases ha : optFalsy (get_audio_and_transcribe env.audio).transcript = true
  · rw [transcriptPhase_fatal env videoId pre logs0 hc ha]
    simp
  · rw [transcriptPhase_audio_success env videoId pre logs0 hc
      (Bool.of_not_eq_true ha), finishAnalyze_logs]
    simp

theorem transcriptPhase_logs_keep (env : PipelineEnv) (videoId : String)
    (pre : List Tier) (logs0 : List String) (x : String) (hx : x ∈ logs0) :
    x ∈ (transcriptPhase env videoId pre logs0).logs := by
  by_cases hc : optFalsy env.captionsResult = true
  · by_cases ha : optFalsy (get_audio_and_transcribe env.audio).transcript = true
    · rw [transcriptPhase_fatal env videoId pre logs0 hc ha]
      simp [hx]
    · rw [transcriptPhase_audio_success env videoId pre logs0 hc
        (Bool.of_not_eq_true ha), finishAnalyze_logs]
      simp [hx]
  · rw [transcriptPhase_captions_success env videoId pre logs0
      (Bool.of_not_eq_true hc), finishAnalyze_logs]
    simp [hx]

/-- C6: the acquisition tiers of process_video_pipeline.  (A) The
attempted tiers always form a subsequence of the fixed priority order
direct, captions, audio.  (B) The direct Gemini tier is attempted exactly
when a Google key is configured.  (C) Direct success short-circuits the
transcript tiers and returns the saved note.  (D) The captions tier runs
exactly when the direct tier was skipped or failed.  (E) The audio tier
runs exactly when the captions tier ran and returned nothing truthy.
(F) The single fatal no-transcript error is raised exactly when every
available tier failed.  (G) In that case no artifact is produced and the
fatal message is logged.  (H) A direct-tier failure is logged.  (I) The
audio tier entry (after a captions failure) is logged. -/
theorem tiered_acquisition (env : PipelineEnv) (videoId : String) :
    (process_video_pipeline env videoId).attempted.Sublist
        [Tier.direct, Tier.captions, Tier.audio]
    ∧ ((Tier.direct ∈ (process_video_pipeline env videoId).attempted)
        ↔ env.googleKey = true)
    ∧ (∀ a, env.googleKey = true → env.geminiResult = .ok a →
        (process_video_pipeline env videoId).attempted = [Tier.direct]
        ∧ (process_video_pipeline env videoId).result
            = .ok (save_note a videoId, a))
    ∧ ((Tier.captions ∈ (process_video_pipeline env videoId).attempted)
        ↔ (env.googleKey = false ∨ ∃ e, env.geminiResult = .error e))
    ∧ ((Tier.audio ∈ (process_video_pipeline env videoId).attempted)
        ↔ ((Tier.captions ∈ (process_video_pipeline env videoId).attempted)
            ∧ optFalsy env.captionsResult = true))
    ∧ ((process_video_pipeline env videoId).result
          = .error PipelineError.noTranscript
        ↔ ((env.googleKey = true → ∃ e, env.geminiResult = .error e)
           ∧ optFalsy env.captionsResult = true
           ∧ optFalsy (get_audio_and_transcribe env.audio).transcript = true))
    ∧ ((process_video_pipeline env videoId).result
          = .error PipelineError.noTranscript →
        (process_video_pipeline env videoId).savedNote = none
        ∧ fatalNoTranscriptLog ∈ (process_video_pipeline env videoId).logs)
    ∧ (∀ e, env.googleKey = true → env.geminiResult = .error e →
        ("Gemini 分析失敗: " ++ e) ∈ (process_video_pipeline env videoId).logs)
    ∧ ((Tier.audio ∈ (process_video_pipeline env videoId).attempted) →
        audioTierStartLog ∈ (process_video_pipeline env videoId).logs) := by
  refine ⟨?_, ?_, ?_, ?_, ?_, ?_, ?_, ?_, ?_⟩
  · -- (A) fixed priority order
    cases hk : env.googleKey
    · rw [pipeline_no_key env videoId hk, transcriptPhase_attempted]
      by_cases hc : optFalsy env.captionsResult = true
      · simp only [hc, if_true, List.nil_append]
        decide
      · simp only [Bool.of_not_eq_true hc, Bool.false_eq_true, if_false,
          List.nil_append]
        decide
    · cases hg : env.geminiResult with
      | ok a =>
        rw [pipeline_direct_ok env videoId a hk hg]
        show List.Sublist [Tier.direct] [Tier.direct, Tier.captions, Tier.audio]
        decide
      | error e =>
        rw [pipeline_direct_err env videoId e hk hg, transcriptPhase_attempted]
        by_cases hc : optFalsy env.captionsResult = true
        · simp only [hc, if_true]
          decide
        · simp only [Bool.of_not_eq_true hc, Bool.false_eq_true, if_false]
          decide
  · -- (B) direct tier exactly when a key is configured
    cases hk : env.googleKey
    · rw [pipeline_no_key env videoId hk, transcriptPhase_attempted]
      by_cases hc : optFalsy env.captionsResult = true
      · simp [hc]
      · simp [Bool.of_not_eq_true hc]
    · cases hg : env.geminiResult with
      | ok a => rw [pipeline_direct_ok env videoId a hk hg]; simp
      | error e =>
        rw [pipeline_direct_err env videoId e hk hg, transcriptPhase_attempted]
        simp
  · -- (C) direct success short-circuits
    intro a hk hg
    rw [pipeline_direct_ok env videoId a hk hg]
    exact ⟨rfl, rfl⟩
  · -- (D) captions tier exactly when direct skipped or failed
    cases hk : env.googleKey
    · rw [pipeline_no_key env videoId hk, transcriptPhase_attempted]
      by_cases hc : optFalsy env.captionsResult = true
      · simp [hc]
      · simp [Bool.of_not_eq_true hc]
    · cases hg : env.geminiResult with
      | ok a => rw [pipeline_direct_ok env videoId a hk hg]; simp
      | error e =>
        rw [pipeline_direct_err env videoId e hk hg, transcriptPhase_attempted]
        by_cases hc : optFalsy env.captionsResult = true
        · simp [hc]
        · simp [Bool.of_not_eq_true hc]
  · -- (E) audio tier exactly after an empty captions tier
    cases hk : env.googleKey
    · rw [pipeline_no_key env videoId hk, transcriptPhase_attempted]
      by_cases hc : optFalsy env.captionsResult = true
      · simp [hc]
      · simp [Bool.of_not_eq_true hc]
    · cases hg : env.geminiResult with
      | ok a => rw [pipeline_direct_ok env videoId a hk hg]; simp
      | error e =>
        rw [pipeline_direct_err env videoId e hk hg, transcriptPhase_attempted]
        by_cases hc : optFalsy env.captionsResult = true
        · simp [hc]
        · simp [Bool.of_not_eq_true hc]
  · -- (F) fatal error exactly on full tier exhaustion
    cases hk : env.googleKey
    · rw [pipeline_no_key env videoId hk, transcriptPhase_fatal_iff]
      simp
    · cases hg : env.geminiResult with
      | ok a =>
        rw [pipeline_direct_ok env videoId a hk hg]
        simp
      | error e =>
        rw [pipeline_direct_err env videoId e hk hg, transcriptPhase_fatal_iff]
        simp [hg]
  · -- (G) fatal error: no artifact, fatal log emitted
    intro hF
    have hshape : ∃ pre logs0, process_video_pipeline env videoId
        = transcriptPhase env videoId pre logs0 := by
      cases hk : env.googleKey
      · exact ⟨_, _, pipeline_no_key env videoId hk⟩
      · cases hg : env.geminiResult with
        | ok a =>
          rw [pipeline_direct_ok env videoId a hk hg] at hF
          simp at hF
        | error e => exact ⟨_, _, pipeline_direct_err env videoId e hk hg⟩
    obtain ⟨pre, logs0, hP⟩ := hshape
    rw [hP] at hF ⊢
    obtain ⟨hc, ha⟩ := (transcriptPhase_fatal_iff env videoId pre logs0).1 hF
    rw [transcriptPhase_fatal env videoId pre logs0 hc ha]
    simp
  · -- (H) direct tier failure is logged
    intro e hk hg
    rw [pipeline_direct_err env videoId e hk hg]
    apply transcriptPhase_logs_keep
    simp
  · -- (I) audio tier entry is logged
    intro hA
    have hstep : ∀ pre logs0, pre = [] ∨ pre = [Tier.direct] →
        Tier.audio ∈ (transcriptPhase env videoId pre logs0).attempted →
        audioTierStartLog ∈ (transcriptPhase env videoId pre logs0).logs := by
      intro pre logs0 hpre hmem
      rw [transcriptPhase_attempted] at hmem
      by_cases hc : optFalsy env.captionsResult = true
      · exact transcriptPhase_audio_log env videoId pre logs0 hc
      · rcases hpre with h1 | h1 <;> rw [h1] at hmem <;>
          simp [Bool.of_not_eq_true hc] at hmem
    cases hk : env.googleKey
    · rw [pipeline_no_key env videoId hk] at hA ⊢
      exact hstep _ _ (Or.inl rfl) hA
    · cases hg : env.geminiResult with
      | ok a =>
        rw [pipeline_direct_ok env videoId a hk hg] at hA
        simp at hA
      | error e =>
        rw [pipeline_direct_err env videoId e hk hg] at hA ⊢
        exact hstep _ _ (Or.inr rfl) hA

/-- Witness for the tiered-acquisition theorem: with every tier failing,
the pipeline raises exactly the fatal no-transcript error. -/
theorem tiered_acquisition_witness :
    (process_video_pipeline pipelineEnvAllFail "vid").result
      = .error PipelineError.noTranscript :=
  (tiered_acquisition pipelineEnvAllFail "vid").2.2.2.2.2.1.mpr
    ⟨fun _ => ⟨"quota", rfl⟩, rfl, rfl⟩

/-! ## Claim theorems for the audio download and transcription tier -/

theorem whisperPhase_playwright (env : AudioEnv) (fs : Nat) (pw : Bool)
    (ca : Option CompressSpec) :
    (whisperPhase env fs pw ca).playwrightInvoked = pw := by
  unfold whisperPhase
  split_ifs <;> rfl

theorem playwrightFallback_invoked (env : AudioEnv)
    (ca : Option CompressSpec) :
    (playwrightFallback env ca).playwrightInvoked = true := by
  unfold playwrightFallback
  cases env.playwright with
  | none => rfl
  | some psz => exact whisperPhase_playwright env psz true ca

theorem finishAnalyze_playwright (env : PipelineEnv) (videoId : String)
    (tiers : List Tier) (pw : Bool) (logs : List String) :
    (finishAnalyze env videoId tiers pw logs).playwrightInvoked = pw := by
  unfold finishAnalyze
  cases env.analyzeResult <;> rfl

theorem transcriptPhase_playwright (env : PipelineEnv) (videoId : String)
    (pre : List Tier) (logs0 : List String) :
    (transcriptPhase env videoId pre logs0).playwrightInvoked
      = if optFalsy env.captionsResult then
          (get_audio_and_transcribe env.audio).playwrightInvoked
        else false := by
  by_cases hc : optFalsy env.captionsResult = true
  · by_cases ha : optFalsy (get_audio_and_transcribe env.audio).transcript = true
    · rw [transcriptPhase_fatal env videoId pre logs0 hc ha]
      simp [hc]
    · rw [transcriptPhase_audio_success env videoId pre logs0 hc
        (Bool.of_not_eq_true ha), finishAnalyze_playwright]
      simp [hc]
  · rw [transcriptPhase_captions_success env videoId pre logs0
      (Bool.of_not_eq_true hc), finishAnalyze_playwright]
    simp [Bool.of_not_eq_true hc]

/-- The trigger condition of the Playwright fallback, as a standalone
characterisation of get_audio_and_transcribe. -/
theorem playwright_trigger_aux (env : AudioEnv) :
    (get_audio_and_transcribe env).playwrightInvoked = true
      ↔ ((∃ m, env.download = .raised m) ∨ env.download = .noFile
         ∨ (∃ sz m, env.download = .okFile sz ∧ sz > sizeCeilingBytes
            ∧ env.compress = .spawnError m)) := by
  cases hd : env.download with
  | raised m =>
    have hlhs : (get_audio_and_transcribe env).playwrightInvoked = true := by
      unfold get_audio_and_transcribe
      rw [hd]
      exact playwrightFallback_invoked env none
    simp [hlhs, hd]
  | noFile =>
    have hlhs : (get_audio_and_transcribe env).playwrightInvoked = true := by
      unfold get_audio_and_transcribe
      rw [hd]
      exact playwrightFallback_invoked env none
    simp [hlhs, hd]
  | okFile sz =>
    have hga : get_audio_and_transcribe env
        = (if sz > sizeCeilingBytes then
            match env.compress with
            | .ok nsz => whisperPhase env nsz false (some ffmpegCompressSpec)
            | .exitError _ =>
              { transcript := none, playwrightInvoked := false,
                compressArgs := some ffmpegCompressSpec,
                splitInvoked := false, segmentTime := none }
            | .spawnError _ =>
              playwrightFallback env (some ffmpegCompressSpec)
          else whisperPhase env sz false none) := by
      unfold get_audio_and_transcribe
      rw [hd]
    by_cases hsz : sz > sizeCeilingBytes
    · cases hcp : env.compress with
      | ok nsz =>
        rw [hga, if_pos hsz, hcp]
        simp [whisperPhase_playwright, hd, hcp]
      | exitError e =>
        rw [hga, if_pos hsz, hcp]
        simp [hd, hcp]
      | spawnError m =>
        rw [hga, if_pos hsz, hcp]
        simp only [playwrightFallback_invoked, hd, hcp, true_iff]
        exact Or.inr (Or.inr ⟨sz, m, rfl, hsz, rfl⟩)
    · rw [hga, if_neg hsz]
      simp [whisperPhase_playwright, hd, hsz]

/-- C7 counterexample: a run in which the yt-dlp downloader succeeds (a
25 MiB audio file is on disk) but the oversize re-encode step fails to
spawn ffmpeg; the exception escapes the inner CalledProcessError handler
to the outer except clause and the Playwright fallback IS invoked, so
invocation is not equivalent to a downloader exception. -/
theorem playwright_invoked_without_downloader_raise :
    audioEnvCE.download = DownloadOutcome.okFile (25 * 1024 * 1024)
    ∧ (get_audio_and_transcribe audioEnvCE).playwrightInvoked = true :=
  ⟨rfl, rfl⟩

/-- C7 amended: the Playwright fallback is invoked exactly when an
exception escapes the download try block: the yt-dlp downloader raised,
the explicit no-audio-file-found exception was raised, or the oversize
compression step failed with an exception other than a nonzero ffmpeg
exit (a CalledProcessError from compression only returns None).  At the
pipeline level, an invocation implies one of those audio-tier failures;
a captions tier that merely returns an empty or None transcript can
never trigger it. -/
theorem playwright_fallback_trigger :
    (∀ env : AudioEnv,
      (get_audio_and_transcribe env).playwrightInvoked = true
        ↔ ((∃ m, env.download = .raised m) ∨ env.download = .noFile
           ∨ (∃ sz m, env.download = .okFile sz ∧ sz > sizeCeilingBytes
              ∧ env.compress = .spawnError m)))
    ∧ (∀ (penv : PipelineEnv) (videoId : String),
        (process_video_pipeline penv videoId).playwrightInvoked = true →
        ((∃ m, penv.audio.download = .raised m) ∨ penv.audio.download = .noFile
         ∨ (∃ sz m, penv.audio.download = .okFile sz ∧ sz > sizeCeilingBytes
            ∧ penv.audio.compress = .spawnError m))) := by
  refine ⟨playwright_trigger_aux, ?_⟩
  intro penv videoId hpw
  have hred : (get_audio_and_transcribe penv.audio).playwrightInvoked = true := by
    cases hk : penv.googleKey
    · rw [pipeline_no_key penv videoId hk, transcriptPhase_playwright] at hpw
      by_cases hc : optFalsy penv.captionsResult = true
      · rw [if_pos hc] at hpw
        exact hpw
      · rw [if_neg hc] at hpw
        cases hpw
    · cases hg : penv.geminiResult with
      | ok a =>
        rw [pipeline_direct_ok penv videoId a hk hg] at hpw
        cases hpw
      | error e =>
        rw [pipeline_direct_err penv videoId e hk hg,
          transcriptPhase_playwright] at hpw
        by_cases hc : optFalsy penv.captionsResult = true
        · rw [if_pos hc] at hpw
          exact hpw
        · rw [if_neg hc] at hpw
          cases hpw
  exact (playwright_trigger_aux penv.audio).1 hred

/-- Witness for the amended Playwright-trigger theorem: the all-fail
pipeline environment invokes the fallback, and the theorem traces this to
its raising downloader. -/
theorem playwright_fallback_trigger_witness :
    (∃ m, pipelineEnvAllFail.audio.download = DownloadOutcome.raised m)
    ∨ pipelineEnvAllFail.audio.download = DownloadOutcome.noFile
    ∨ (∃ sz m, pipelineEnvAllFail.audio.download = DownloadOutcome.okFile sz
        ∧ sz > sizeCeilingBytes
        ∧ pipelineEnvAllFail.audio.compress = CompressOutcome.spawnError m) :=
  playwright_fallback_trigger.2 pipelineEnvAllFail "vid" rfl

theorem transcribeChunks_all_ok (transcribe : Nat → Except String String)
    (hok : ∀ k, ∃ t, transcribe k = .ok t) :
    ∀ (n k : Nat) (acc : String),
      transcribeChunks transcribe k n acc
        = some (acc ++ (List.range' k n).foldr
            (fun j s => chunkText transcribe j ++ " " ++ s) "") := by
  intro n
  induction n with
  | zero =>
    intro k acc
    simp [transcribeChunks, String.append_empty]
  | succ n ih =>
    intro k acc
    obtain ⟨t, ht⟩ := hok k
    rw [transcribeChunks, ht]
    dsimp only
    rw [ih (k + 1) (acc ++ t ++ " ")]
    have hct : chunkText transcribe k = t := by
      unfold chunkText
      rw [ht]
    rw [List.range'_succ, List.foldr_cons, hct]
    simp [String.append_assoc]

/-- C8: in get_audio_and_transcribe, a downloaded audio file over the
24 MB ceiling is first re-encoded with ffmpeg -ac 1 -b:a 8k (mono, low
bitrate); if the re-encoded file is still over the ceiling it is split
into fixed 1200-second (20-minute) segments and every segment transcript
is concatenated in original segment order, each followed by a single
space; otherwise the single re-encoded file is transcribed. -/
theorem oversize_audio_compress_split_concat (env : AudioEnv) (sz nsz : Nat)
    (hdl : env.download = .okFile sz) (hsz : sz > sizeCeilingBytes)
    (hcp : env.compress = .ok nsz) (hkey : env.openaiKey = true)
    (hok : ∀ k, ∃ t, env.transcribe k = .ok t) :
    (get_audio_and_transcribe env).compressArgs = some ffmpegCompressSpec
    ∧ ffmpegCompressSpec = ⟨1, "8k"⟩
    ∧ (nsz > sizeCeilingBytes →
        (get_audio_and_transcribe env).splitInvoked = true
        ∧ (get_audio_and_transcribe env).segmentTime = some segmentSeconds
        ∧ segmentSeconds = 1200
        ∧ (get_audio_and_transcribe env).transcript
            = some ((List.range' 0 env.segmentCount).foldr
                (fun j s => chunkText env.transcribe j ++ " " ++ s) ""))
    ∧ (¬ nsz > sizeCeilingBytes →
        (get_audio_and_transcribe env).splitInvoked = false
        ∧ (∃ t, env.transcribe 0 = .ok t
            ∧ (get_audio_and_transcribe env).transcript = some (t ++ " "))) := by
  have hga : get_audio_and_transcribe env
      = whisperPhase env nsz false (some ffmpegCompressSpec) := by
    unfold get_audio_and_transcribe
    rw [hdl]
    show (if sz > sizeCeilingBytes then _ else _) = _
    rw [if_pos hsz, hcp]
  by_cases hnsz : nsz > sizeCeilingBytes
  · have hwp : whisperPhase env nsz false (some ffmpegCompressSpec)
        = { transcript := transcribeChunks env.transcribe 0 env.segmentCount "",
            playwrightInvoked := false,
            compressArgs := some ffmpegCompressSpec,
            splitInvoked := true, segmentTime := some segmentSeconds } := by
      unfold whisperPhase
      rw [hkey]
      show (if nsz > sizeCeilingBytes then _ else _) = _
      rw [if_pos hnsz]
    refine ⟨by rw [hga, hwp], rfl, fun _ => ⟨by rw [hga, hwp], by rw [hga, hwp],
      rfl, ?_⟩, fun hcon => absurd hnsz hcon⟩
    rw [hga, hwp]
    show transcribeChunks env.transcribe 0 env.segmentCount "" = _
    rw [transcribeChunks_all_ok env.transcribe hok env.segmentCount 0 ""]
    rw [String.empty_append]
  · have hwp : whisperPhase env nsz false (some ffmpegCompressSpec)
        = { transcript := transcribeChunks env.transcribe 0 1 "",
            playwrightInvoked := false,
            compressArgs := some ffmpegCompressSpec,
            splitInvoked := false, segmentTime := none } := by
      unfold whisperPhase
      rw [hkey]
      show (if nsz > sizeCeilingBytes then _ else _) = _
      rw [if_neg hnsz]
    obtain ⟨t, ht⟩ := hok 0
    refine ⟨by rw [hga, hwp], rfl, fun hcon => absurd hcon hnsz,
      fun _ => ⟨by rw [hga, hwp], t, ht, ?_⟩⟩
    rw [hga, hwp]
    show transcribeChunks env.transcribe 0 1 "" = _
    rw [transcribeChunks, ht]
    dsimp only
    rw [transcribeChunks, String.empty_append]

/-- Witness for the oversize-audio theorem: a 30 MiB download re-encoded
to 26 MiB, split into two segments transcribed as hello and world, whose
transcripts are concatenated in order with separating spaces. -/
theorem oversize_audio_compress_split_concat_witness :
    (get_audio_and_transcribe audioEnvW).compressArgs = some ffmpegCompressSpec
    ∧ (get_audio_and_transcribe audioEnvW).splitInvoked = true
    ∧ (get_audio_and_transcribe audioEnvW).segmentTime = some 1200
    ∧ (get_audio_and_transcribe audioEnvW).transcript = some "hello world " := by
  have h := oversize_audio_compress_split_concat audioEnvW
    (30 * 1024 * 1024) (26 * 1024 * 1024) rfl (by decide) rfl rfl
    (fun k => ⟨if k = 0 then "hello" else "world", rfl⟩)
  have h3 := h.2.2.1 (by decide)
  refine ⟨h.1, h3.1, h3.2.1, ?_⟩
  rw [h3.2.2.2]
  rfl

end YTS
